import Mathlib

/-!
Shallow embedding of the `oneshot` SPSC channel (`src/lib.rs`).

The channel's heap control block holds an atomic one-byte state word, an
uninitialized payload slot and an uninitialized waker slot.  We model the
control block as a `Channel` structure where the two `MaybeUninit` slots are
tracked as `Option`s, and every operation of the two endpoints as a pure
function on that structure.  Operations are split at each atomic access of
the state word (load, swap or compare-exchange), so that steps of the other
endpoint can interleave between the phases; each phase returns the channel
it leaves behind together with the externally observable resource effects
(wakeups delivered, wakers dropped, payload drops, frees of the control
block).  Code paths that hit a `panic!` or an `unreachable!` are represented
by the `Run.panicked` constructor.
-/

deriving instance DecidableEq for Except

namespace Oneshot

set_option maxHeartbeats 1000000

/-- The four values of the `Channel::state` word, from `mod states` in `lib.rs`. -/
inductive StateWord where
  | EMPTY
  | MESSAGE
  | RECEIVING
  | DISCONNECTED
deriving DecidableEq

/-- The numeric encoding of the state word, matching the `u8` constants of
`mod states` (`EMPTY = 0`, `MESSAGE = 1`, `RECEIVING = 2`, `DISCONNECTED = 3`). -/
def StateWord.toByte : StateWord → Nat
  | .EMPTY => 0
  | .MESSAGE => 1
  | .RECEIVING => 2
  | .DISCONNECTED => 3

/-- `ReceiverWaker` (`lib.rs` 870-880): the tagged waker stored in the channel;
the opaque host thread handle / task waker is abstracted as an identifier. -/
inductive ReceiverWaker where
  | thread (t : Nat)
  | task (w : Nat)
deriving DecidableEq

/-- Shallow model of the heap control block `Channel<T>` (`lib.rs` 733-737): the
atomic state word plus the payload and waker slots; the contents of the two
`MaybeUninit` slots are tracked as `Option`s (`some` iff initialized). -/
structure Channel (α : Type) where
  state : StateWord
  message : Option α
  waker : Option ReceiverWaker
deriving DecidableEq

/-- `Channel::new` (`lib.rs` 740-746). -/
def Channel.new {α : Type} : Channel α :=
  { state := StateWord.EMPTY, message := none, waker := none }

/-- `Channel::write_message`. -/
def Channel.write_message {α : Type} (c : Channel α) (m : α) : Channel α :=
  { c with message := some m }

/-- `Channel::write_waker`. -/
def Channel.write_waker {α : Type} (c : Channel α) (w : ReceiverWaker) : Channel α :=
  { c with waker := some w }

/-- Externally observable resource effects of one operation: wakeups delivered
(`unpark`/`wake` on a taken waker), wakers dropped without waking, payload
drops, and frees of the control block (`dealloc`, `lib.rs` 921-924). -/
structure Effects where
  unparked : List ReceiverWaker
  droppedWakers : List ReceiverWaker
  droppedMsgs : Nat
  deallocs : Nat
deriving DecidableEq

/-- No effect. -/
def Effects.nil : Effects :=
  { unparked := [], droppedWakers := [], droppedMsgs := 0, deallocs := 0 }

/-- The taken waker was invoked (`ReceiverWaker::unpark`). -/
def Effects.unpark (w : ReceiverWaker) : Effects :=
  { Effects.nil with unparked := [w] }

/-- The waker was dropped locally, without waking anyone (`Channel::drop_waker`). -/
def Effects.dropWaker (w : ReceiverWaker) : Effects :=
  { Effects.nil with droppedWakers := [w] }

/-- The payload was dropped in place (`Channel::drop_message`). -/
def Effects.dropMsg : Effects :=
  { Effects.nil with droppedMsgs := 1 }

/-- The control block was freed (`dealloc`). -/
def Effects.dealloc1 : Effects :=
  { Effects.nil with deallocs := 1 }

/-- Sequencing of effects. -/
def Effects.add (a b : Effects) : Effects :=
  { unparked := a.unparked ++ b.unparked,
    droppedWakers := a.droppedWakers ++ b.droppedWakers,
    droppedMsgs := a.droppedMsgs + b.droppedMsgs,
    deallocs := a.deallocs + b.deallocs }

/-- Result of running one code path: either a value, or a `panic!` /
`unreachable!` carrying its message. -/
inductive Run (β : Type) where
  | ok (val : β)
  | panicked (msg : String)
deriving DecidableEq

/-- Whether the path panicked. -/
def Run.isPanicked {β : Type} : Run β → Bool
  | .ok _ => false
  | .panicked _ => true

/-- `MaybeUninit::assume_init` on a slot: reading an uninitialized slot is
undefined behaviour in the source and is mapped to a panicking run here; the
reachability hypotheses of the theorems exclude it. -/
def assumeInit {α β : Type} (o : Option α) (k : α → Run β) : Run β :=
  match o with
  | some a => k a
  | none => .panicked "undefined: assume_init on an uninitialized slot"

/-- The panic message of `lib.rs` 917-919. -/
def RECEIVER_USED_SYNC_AND_ASYNC_ERROR : String :=
  "Invalid to call a blocking receive method on oneshot::Receiver after it has been polled"

/-- `TryRecvError` surface (constructors per the doc of `try_recv`). -/
inductive TryRecvError where
  | Empty
  | Disconnected
deriving DecidableEq

/-- `RecvError` surface (a unit error). -/
inductive RecvError where
  | mk
deriving DecidableEq

/-- `RecvTimeoutError` surface. -/
inductive RecvTimeoutError where
  | Timeout
  | Disconnected
deriving DecidableEq

/-- Modelled from the spec: `SendError<T>` of the missing `errors.rs` (spec §4.4).
The wrapper returned by `send` when the receiver is gone; it carries the
control-block pointer, so it owns the block and the payload sitting in it. -/
structure SendError (α : Type) where
  chan : Channel α
deriving DecidableEq

/-- Modelled from the spec: `SendError::into_value` (spec §4.4) returns the
payload by move; the control block is freed by the wrapper. -/
def SendError.into_value {α : Type} (e : SendError α) : Option α × Effects :=
  (e.chan.message,
    { unparked := [], droppedWakers := [], droppedMsgs := 0, deallocs := 1 })

/-- Modelled from the spec: dropping the `SendError` (spec §4.4) drops the
payload and frees the control block. -/
def SendError.dropRun {α : Type} (e : SendError α) : Effects :=
  { unparked := [], droppedWakers := [],
    droppedMsgs := match e.chan.message with | some _ => 1 | none => 0,
    deallocs := 1 }

/-- Result surface of `Sender::send`. -/
inductive SendRes (α : Type) where
  | ok
  | err (e : SendError α)
deriving DecidableEq

/-- `Sender::send` (`lib.rs` 268-292): write the message into the slot, swap the
state word to `MESSAGE`, then branch on the previous state.  On `RECEIVING`
the waker is taken and invoked; on `DISCONNECTED` the returned error owns the
channel; the wildcard arm is `unreachable!`. -/
def Sender.send {α : Type} (x : α) (c : Channel α) : Run (SendRes α × Channel α × Effects) :=
  let c1 := c.write_message x
  let c2 := { c1 with state := StateWord.MESSAGE }
  match c1.state with
  | .EMPTY => .ok (.ok, c2, Effects.nil)
  | .RECEIVING =>
      assumeInit c2.waker fun w =>
        .ok (.ok, { c2 with waker := none }, Effects.unpark w)
  | .DISCONNECTED => .ok (.err { chan := c2 }, c2, Effects.nil)
  | .MESSAGE => .panicked "unreachable"

/-- `Drop for Sender` (`lib.rs` 295-313): swap the state word to `DISCONNECTED`
and branch on the previous state; the wildcard arm is `unreachable!`. -/
def Sender.drop {α : Type} (c : Channel α) : Run (Channel α × Effects) :=
  let c1 := { c with state := StateWord.DISCONNECTED }
  match c.state with
  | .EMPTY => .ok (c1, Effects.nil)
  | .RECEIVING =>
      assumeInit c1.waker fun w =>
        .ok ({ c1 with waker := none }, Effects.unpark w)
  | .DISCONNECTED => .ok (c1, Effects.dealloc1)
  | .MESSAGE => .panicked "unreachable"

/-- `Receiver::try_recv` (`lib.rs` 329-348): a single load of the state word. -/
def Receiver.try_recv {α : Type} (c : Channel α) :
    Run (Except TryRecvError α × Channel α × Effects) :=
  match c.state with
  | .EMPTY => .ok (.error TryRecvError.Empty, c, Effects.nil)
  | .MESSAGE =>
      let c1 := { c with state := StateWord.DISCONNECTED }
      assumeInit c1.message fun m =>
        .ok (.ok m, { c1 with message := none }, Effects.nil)
  | .DISCONNECTED => .ok (.error TryRecvError.Disconnected, c, Effects.nil)
  | .RECEIVING => .ok (.error TryRecvError.Empty, c, Effects.nil)

/-- Intermediate positions of the blocking receive state machines, split at the
atomic accesses of the state word so that producer steps can interleave:
`armed` (waker written, the `compare_exchange(EMPTY, RECEIVING)` is next),
`parked` (the compare-exchange succeeded, the thread parks), `again`
(spurious wakeup, park again), `done`. -/
inductive BlockingStep (ε : Type) (α : Type) where
  | done (res : Except ε α) (c : Channel α) (eff : Effects)
  | armed (c : Channel α)
  | parked (c : Channel α)
  | again (c : Channel α)
deriving DecidableEq

/-- The channel left behind by a blocking step. -/
def BlockingStep.chan {ε α : Type} : BlockingStep ε α → Channel α
  | .done _ c _ => c
  | .armed c => c
  | .parked c => c
  | .again c => c

/-- The effects of a blocking step. -/
def BlockingStep.eff {ε α : Type} : BlockingStep ε α → Effects
  | .done _ _ e => e
  | .armed _ => Effects.nil
  | .parked _ => Effects.nil
  | .again _ => Effects.nil

/-- `Receiver::recv` entry dispatch (`lib.rs` 368-443): the initial load.  The
receiver is consumed, so the `MESSAGE` and `DISCONNECTED` arms free the
control block; the `RECEIVING` arm is the sync-after-async panic. -/
def Receiver.recv {α : Type} (tid : Nat) (c : Channel α) : Run (BlockingStep RecvError α) :=
  match c.state with
  | .EMPTY => .ok (.armed (c.write_waker (ReceiverWaker.thread tid)))
  | .MESSAGE =>
      assumeInit c.message fun m =>
        .ok (.done (.ok m) { c with message := none } Effects.dealloc1)
  | .DISCONNECTED => .ok (.done (.error RecvError.mk) c Effects.dealloc1)
  | .RECEIVING => .panicked RECEIVER_USED_SYNC_AND_ASYNC_ERROR

/-- `Receiver::recv`, the `compare_exchange(EMPTY, RECEIVING)` and its outcomes
(`lib.rs` 388-426); the waker instance has already been written to the slot. -/
def Receiver.recvCAS {α : Type} (c : Channel α) : Run (BlockingStep RecvError α) :=
  match c.state with
  | .EMPTY => .ok (.parked { c with state := StateWord.RECEIVING })
  | .MESSAGE =>
      assumeInit c.waker fun w =>
        assumeInit c.message fun m =>
          .ok (.done (.ok m) { c with waker := none, message := none }
                (Effects.add (Effects.dropWaker w) Effects.dealloc1))
  | .DISCONNECTED =>
      assumeInit c.waker fun w =>
        .ok (.done (.error RecvError.mk) { c with waker := none }
              (Effects.add (Effects.dropWaker w) Effects.dealloc1))
  | .RECEIVING => .panicked "unreachable"

/-- `Receiver::recv`, one round of the park loop (`lib.rs` 393-411): the load
after `thread::park()`; `EMPTY` is the `unreachable!` arm. -/
def Receiver.recvLoopBody {α : Type} (c : Channel α) : Run (BlockingStep RecvError α) :=
  match c.state with
  | .MESSAGE =>
      assumeInit c.message fun m =>
        .ok (.done (.ok m) { c with message := none } Effects.dealloc1)
  | .DISCONNECTED => .ok (.done (.error RecvError.mk) c Effects.dealloc1)
  | .RECEIVING => .ok (.again c)
  | .EMPTY => .panicked "unreachable"

/-- `Receiver::recv_ref` entry dispatch (`lib.rs` 457-520): like `recv` but the
receiver stays alive, so successful receives store `DISCONNECTED` and never
free the control block. -/
def Receiver.recv_ref {α : Type} (tid : Nat) (c : Channel α) : Run (BlockingStep RecvError α) :=
  match c.state with
  | .EMPTY => .ok (.armed (c.write_waker (ReceiverWaker.thread tid)))
  | .MESSAGE =>
      let c1 := { c with state := StateWord.DISCONNECTED }
      assumeInit c1.message fun m =>
        .ok (.done (.ok m) { c1 with message := none } Effects.nil)
  | .DISCONNECTED => .ok (.done (.error RecvError.mk) c Effects.nil)
  | .RECEIVING => .panicked RECEIVER_USED_SYNC_AND_ASYNC_ERROR

/-- `Receiver::recv_ref`, the `compare_exchange(EMPTY, RECEIVING)` and its
outcomes (`lib.rs` 473-506). -/
def Receiver.recvRefCAS {α : Type} (c : Channel α) : Run (BlockingStep RecvError α) :=
  match c.state with
  | .EMPTY => .ok (.parked { c with state := StateWord.RECEIVING })
  | .MESSAGE =>
      let c1 := { c with state := StateWord.DISCONNECTED }
      assumeInit c1.waker fun w =>
        assumeInit c1.message fun m =>
          .ok (.done (.ok m) { c1 with waker := none, message := none } (Effects.dropWaker w))
  | .DISCONNECTED =>
      assumeInit c.waker fun w =>
        .ok (.done (.error RecvError.mk) { c with waker := none } (Effects.dropWaker w))
  | .RECEIVING => .panicked "unreachable"

/-- `Receiver::recv_ref`, one round of the park loop (`lib.rs` 478-493). -/
def Receiver.recvRefLoopBody {α : Type} (c : Channel α) : Run (BlockingStep RecvError α) :=
  match c.state with
  | .MESSAGE =>
      let c1 := { c with state := StateWord.DISCONNECTED }
      assumeInit c1.message fun m =>
        .ok (.done (.ok m) { c1 with message := none } Effects.nil)
  | .DISCONNECTED => .ok (.done (.error RecvError.mk) c Effects.nil)
  | .RECEIVING => .ok (.again c)
  | .EMPTY => .panicked "unreachable"

/-- `Receiver::recv_deadline` entry dispatch (`lib.rs` 558-633). -/
def Receiver.recv_deadline {α : Type} (tid : Nat) (c : Channel α) :
    Run (BlockingStep RecvTimeoutError α) :=
  match c.state with
  | .EMPTY => .ok (.armed (c.write_waker (ReceiverWaker.thread tid)))
  | .MESSAGE =>
      let c1 := { c with state := StateWord.DISCONNECTED }
      assumeInit c1.message fun m =>
        .ok (.done (.ok m) { c1 with message := none } Effects.nil)
  | .DISCONNECTED => .ok (.done (.error RecvTimeoutError.Disconnected) c Effects.nil)
  | .RECEIVING => .panicked RECEIVER_USED_SYNC_AND_ASYNC_ERROR

/-- `Receiver::recv_deadline`, the `compare_exchange(EMPTY, RECEIVING)` and its
outcomes (`lib.rs` 574-619). -/
def Receiver.recvDeadlineCAS {α : Type} (c : Channel α) :
    Run (BlockingStep RecvTimeoutError α) :=
  match c.state with
  | .EMPTY => .ok (.parked { c with state := StateWord.RECEIVING })
  | .MESSAGE =>
      let c1 := { c with state := StateWord.DISCONNECTED }
      assumeInit c1.waker fun w =>
        assumeInit c1.message fun m =>
          .ok (.done (.ok m) { c1 with waker := none, message := none } (Effects.dropWaker w))
  | .DISCONNECTED =>
      assumeInit c.waker fun w =>
        .ok (.done (.error RecvTimeoutError.Disconnected) { c with waker := none }
              (Effects.dropWaker w))
  | .RECEIVING => .panicked "unreachable"

/-- `Receiver::recv_deadline`, one round of the park loop (`lib.rs` 579-606).
If the deadline has not passed the body is a timed park followed by a load
(`timedOut = false`); if it has passed the body is the withdrawal swap
`swap(EMPTY)` (`timedOut = true`).  The branch on the observed previous state
is shared: `MESSAGE` stores `DISCONNECTED` and takes the message;
`DISCONNECTED` just returns the disconnected error; `RECEIVING` either parks
again or — when timed out — drops the withdrawn waker and reports `Timeout`. -/
def Receiver.recvDeadlineLoopBody {α : Type} (timedOut : Bool) (c : Channel α) :
    Run (BlockingStep RecvTimeoutError α) :=
  let obs := c.state
  let c0 := if timedOut then { c with state := StateWord.EMPTY } else c
  match obs with
  | .MESSAGE =>
      let c1 := { c0 with state := StateWord.DISCONNECTED }
      assumeInit c1.message fun m =>
        .ok (.done (.ok m) { c1 with message := none } Effects.nil)
  | .DISCONNECTED => .ok (.done (.error RecvTimeoutError.Disconnected) c0 Effects.nil)
  | .RECEIVING =>
      if timedOut then
        assumeInit c0.waker fun w =>
          .ok (.done (.error RecvTimeoutError.Timeout) { c0 with waker := none }
                (Effects.dropWaker w))
      else .ok (.again c0)
  | .EMPTY => .panicked "unreachable"

/-- `Receiver::recv_timeout` (`lib.rs` 538-543): if `Instant::now() + timeout`
overflows (`overflowed = true`) fall back to `recv_ref`, mapping its error to
`Disconnected`; otherwise delegate to `recv_deadline`. -/
def Receiver.recv_timeout {α : Type} (overflowed : Bool) (tid : Nat) (c : Channel α) :
    Run (BlockingStep RecvTimeoutError α) :=
  if overflowed then
    match Receiver.recv_ref tid c with
    | .ok (.done (.ok m) c1 e) => .ok (.done (.ok m) c1 e)
    | .ok (.done (.error _) c1 e) => .ok (.done (.error RecvTimeoutError.Disconnected) c1 e)
    | .ok (.armed c1) => .ok (.armed c1)
    | .ok (.parked c1) => .ok (.parked c1)
    | .ok (.again c1) => .ok (.again c1)
    | .panicked msg => .panicked msg
  else Receiver.recv_deadline tid c

/-- `Poll` surface of the `Future` implementation. -/
inductive Poll (α : Type) where
  | Ready (r : Except RecvError α)
  | Pending
deriving DecidableEq

/-- Intermediate positions of the async poll state machine, split at the atomic
accesses of the state word: `toCAS` (a task waker has been written to the
slot, the `compare_exchange(EMPTY, RECEIVING)` of `write_async_waker` is
next), `reclaim` (the entry load observed `RECEIVING`, the
`compare_exchange(RECEIVING, EMPTY)` is next), `done`. -/
inductive AsyncStep (α : Type) where
  | done (res : Poll α) (c : Channel α) (eff : Effects)
  | toCAS (c : Channel α) (eff : Effects)
  | reclaim (c : Channel α)
deriving DecidableEq

/-- The channel left behind by an async step. -/
def AsyncStep.chan {α : Type} : AsyncStep α → Channel α
  | .done _ c _ => c
  | .toCAS c _ => c
  | .reclaim c => c

/-- The effects of an async step. -/
def AsyncStep.eff {α : Type} : AsyncStep α → Effects
  | .done _ _ e => e
  | .toCAS _ e => e
  | .reclaim _ => Effects.nil

/-- `<Receiver as Future>::poll` entry dispatch (`lib.rs` 640-679): the initial
load.  `EMPTY` writes a task waker cloned from the context and proceeds to
`write_async_waker`'s compare-exchange; `RECEIVING` proceeds to the reclaim
compare-exchange. -/
def Receiver.poll {α : Type} (wid : Nat) (c : Channel α) : Run (AsyncStep α) :=
  match c.state with
  | .EMPTY => .ok (.toCAS (c.write_waker (ReceiverWaker.task wid)) Effects.nil)
  | .RECEIVING => .ok (.reclaim c)
  | .MESSAGE =>
      let c1 := { c with state := StateWord.DISCONNECTED }
      assumeInit c1.message fun m =>
        .ok (.done (.Ready (.ok m)) { c1 with message := none } Effects.nil)
  | .DISCONNECTED => .ok (.done (.Ready (.error RecvError.mk)) c Effects.nil)

/-- The `compare_exchange(RECEIVING, EMPTY)` of the re-poll branch
(`lib.rs` 648-668).  On success the old waker is dropped and the new task
waker is written, proceeding to `write_async_waker`'s compare-exchange
exactly as the `EMPTY` entry branch does; on observing `MESSAGE` or
`DISCONNECTED` the old waker is NOT dropped (the sender consumed it). -/
def Receiver.pollReceivingCAS {α : Type} (wid : Nat) (c : Channel α) : Run (AsyncStep α) :=
  match c.state with
  | .RECEIVING =>
      let c1 := { c with state := StateWord.EMPTY }
      assumeInit c1.waker fun w =>
        .ok (.toCAS (Channel.write_waker { c1 with waker := none } (ReceiverWaker.task wid))
              (Effects.dropWaker w))
  | .MESSAGE =>
      let c1 := { c with state := StateWord.DISCONNECTED }
      assumeInit c1.message fun m =>
        .ok (.done (.Ready (.ok m)) { c1 with message := none } Effects.nil)
  | .DISCONNECTED => .ok (.done (.Ready (.error RecvError.mk)) c Effects.nil)
  | .EMPTY => .panicked "unreachable"

/-- `Channel::write_async_waker`'s `compare_exchange(EMPTY, RECEIVING)`
(`lib.rs` 843-867); the task waker has already been written to the slot. -/
def Channel.write_async_waker {α : Type} (c : Channel α) : Run (AsyncStep α) :=
  match c.state with
  | .EMPTY => .ok (.done .Pending { c with state := StateWord.RECEIVING } Effects.nil)
  | .DISCONNECTED =>
      assumeInit c.waker fun w =>
        .ok (.done (.Ready (.error RecvError.mk)) { c with waker := none }
              (Effects.dropWaker w))
  | .MESSAGE =>
      assumeInit c.waker fun w =>
        let c1 := { c with waker := none, state := StateWord.DISCONNECTED }
        assumeInit c1.message fun m =>
          .ok (.done (.Ready (.ok m)) { c1 with message := none } (Effects.dropWaker w))
  | .RECEIVING => .panicked "unreachable"

/-- `Drop for Receiver` (`lib.rs` 682-708): swap the state word to
`DISCONNECTED` and branch on the previous state.  Note that the `RECEIVING`
arm only drops the locally owned waker: it does NOT free the control block
(the sender is still alive there and will observe `DISCONNECTED`). -/
def Receiver.drop {α : Type} (c : Channel α) : Run (Channel α × Effects) :=
  let c1 := { c with state := StateWord.DISCONNECTED }
  match c.state with
  | .EMPTY => .ok (c1, Effects.nil)
  | .MESSAGE =>
      assumeInit c1.message fun _ =>
        .ok ({ c1 with message := none }, Effects.add Effects.dropMsg Effects.dealloc1)
  | .RECEIVING =>
      assumeInit c1.waker fun w =>
        .ok ({ c1 with waker := none }, Effects.dropWaker w)
  | .DISCONNECTED => .ok (c1, Effects.dealloc1)

/-- The schedule named by the spec's no-leak law, executed step by step through
the operation models: the receiver enters `recv_deadline` on a fresh channel
and parks; the sender is dropped (observing `RECEIVING`, so it takes and
invokes the waker without freeing); the receiver wakes with the deadline
passed, so its withdrawal swap observes `DISCONNECTED`; finally the receiver
is dropped.  Returns the accumulated effects and the final control block. -/
def leakSchedule : Option (Effects × Channel Nat) :=
  match Receiver.recv_deadline 0 (Channel.new : Channel Nat) with
  | .ok (.armed c1) =>
    match Receiver.recvDeadlineCAS c1 with
    | .ok (.parked c2) =>
      match Sender.drop c2 with
      | .ok (c3, e3) =>
        match Receiver.recvDeadlineLoopBody true c3 with
        | .ok (.done (.error RecvTimeoutError.Disconnected) c4 e4) =>
          match Receiver.drop c4 with
          | .ok (c5, e5) => some (Effects.add e3 (Effects.add e4 e5), c5)
          | _ => none
        | _ => none
      | _ => none
    | _ => none
  | _ => none

/-- Slot-initialization discipline of the control block (spec §3, invariants 3
and 4): the payload slot is initialized when the state word is `MESSAGE`, the
waker slot when it is `RECEIVING`. -/
def Channel.slotsOk {α : Type} (c : Channel α) : Prop :=
  (c.state = StateWord.MESSAGE → ∃ m, c.message = some m) ∧
    (c.state = StateWord.RECEIVING → ∃ w, c.waker = some w)

/-- Abstract system for claim C9: whether the producer endpoint is still live
(neither consumed by `send` via `mem::forget` nor dropped), together with the
current value of the state word. -/
structure SysC9 where
  senderAlive : Bool
  st : StateWord
deriving DecidableEq

/-- One atomic write to the state word, by either endpoint; each constructor is
one of the stores, swaps or successful compare-exchanges of `lib.rs`:
`sendSwap` is `send`'s `swap(MESSAGE)` (which consumes the sender),
`senderDropSwap` is `Sender::drop`'s `swap(DISCONNECTED)`,
`receiverStoreDisc` covers every receiver-side `store(DISCONNECTED)` and
`Receiver::drop`'s `swap(DISCONNECTED)`, `receiverInstall` the successful
`compare_exchange(EMPTY, RECEIVING)`, `receiverWithdrawSwap` the deadline
withdrawal `swap(EMPTY)`, and `receiverReclaim` the successful
`compare_exchange(RECEIVING, EMPTY)` of the re-poll branch. -/
inductive SysStep : SysC9 → SysC9 → Prop where
  | sendSwap (s : SysC9) : s.senderAlive = true →
      SysStep s { senderAlive := false, st := StateWord.MESSAGE }
  | senderDropSwap (s : SysC9) : s.senderAlive = true →
      SysStep s { senderAlive := false, st := StateWord.DISCONNECTED }
  | receiverStoreDisc (s : SysC9) : SysStep s { s with st := StateWord.DISCONNECTED }
  | receiverInstall (s : SysC9) : s.st = StateWord.EMPTY →
      SysStep s { s with st := StateWord.RECEIVING }
  | receiverWithdrawSwap (s : SysC9) : SysStep s { s with st := StateWord.EMPTY }
  | receiverReclaim (s : SysC9) : s.st = StateWord.RECEIVING →
      SysStep s { s with st := StateWord.EMPTY }

/-- Reachability from the initial configuration (live sender, `EMPTY` word). -/
def SysReachable (s : SysC9) : Prop :=
  Relation.ReflTransGen SysStep { senderAlive := true, st := StateWord.EMPTY } s

/-- Claim C1: evaluation of the code on the schedule the claim singles out —
the receiver parks in `recv_deadline`, the sender is dropped (its swap
observes `RECEIVING`, so it wakes the receiver without freeing), the
receiver's deadline withdrawal swap observes `DISCONNECTED`, and the receiver
is then dropped.  Both endpoints are gone at the end of the schedule, yet
the accumulated effects contain ZERO deallocations of the control block
(and the final block still sits on the heap): the control block is leaked,
contradicting the claim that it is deallocated exactly once.  The leak
arises because the withdrawal swap leaves the word at `EMPTY`, so
`Receiver::drop` later observes `EMPTY` and frees nothing, while the sender
is already gone. -/
theorem c1_recv_deadline_disconnect_leak :
    leakSchedule = some
      ({ unparked := [ReceiverWaker.thread 0], droppedWakers := [], droppedMsgs := 0,
         deallocs := 0 },
       { state := StateWord.DISCONNECTED, message := none, waker := none }) := by decide

/-- Claim C2, counterexample: `DISCONNECTED` is NOT preserved by every
operation's atomic transition.  `send` on a disconnected channel leaves the
state word at `MESSAGE` (its swap is unconditional), and the deadline
withdrawal swap of `recv_deadline` on a disconnected channel leaves the word
at `EMPTY`; neither equals `DISCONNECTED`. -/
theorem c2_counterexample :
    (Sender.send 0 ({ state := StateWord.DISCONNECTED, message := none, waker := none } : Channel Nat)
      = Run.ok (SendRes.err { chan := { state := StateWord.MESSAGE, message := some 0, waker := none } },
          { state := StateWord.MESSAGE, message := some 0, waker := none }, Effects.nil))
    ∧ StateWord.MESSAGE ≠ StateWord.DISCONNECTED
    ∧ (Receiver.recvDeadlineLoopBody true
        ({ state := StateWord.DISCONNECTED, message := none, waker := none } : Channel Nat)
      = Run.ok (BlockingStep.done (Except.error RecvTimeoutError.Disconnected)
          { state := StateWord.EMPTY, message := none, waker := none } Effects.nil))
    ∧ StateWord.EMPTY ≠ StateWord.DISCONNECTED := by decide

/-- Claim C2, amended: every operation of either endpoint EXCEPT `send`
(whose unconditional swap leaves the word at `MESSAGE`, ownership of the
block passing to the returned error) and the deadline-passed withdrawal swap
of `recv_deadline`/`recv_timeout` (which leaves the word at `EMPTY`)
preserves `DISCONNECTED`: if the state word is `DISCONNECTED` before the
operation's atomic transition it is still `DISCONNECTED` after it. -/
theorem c2_disconnected_preserved_amended {α : Type} (c : Channel α)
    (h : c.state = StateWord.DISCONNECTED) :
    (∀ p, Sender.drop c = Run.ok p → p.1.state = StateWord.DISCONNECTED)
    ∧ (∀ r c1 e, Receiver.try_recv c = Run.ok (r, c1, e) → c1.state = StateWord.DISCONNECTED)
    ∧ (∀ tid s, Receiver.recv tid c = Run.ok s → s.chan.state = StateWord.DISCONNECTED)
    ∧ (∀ s, Receiver.recvCAS c = Run.ok s → s.chan.state = StateWord.DISCONNECTED)
    ∧ (∀ s, Receiver.recvLoopBody c = Run.ok s → s.chan.state = StateWord.DISCONNECTED)
    ∧ (∀ tid s, Receiver.recv_ref tid c = Run.ok s → s.chan.state = StateWord.DISCONNECTED)
    ∧ (∀ s, Receiver.recvRefCAS c = Run.ok s → s.chan.state = StateWord.DISCONNECTED)
    ∧ (∀ s, Receiver.recvRefLoopBody c = Run.ok s → s.chan.state = StateWord.DISCONNECTED)
    ∧ (∀ tid s, Receiver.recv_deadline tid c = Run.ok s → s.chan.state = StateWord.DISCONNECTED)
    ∧ (∀ s, Receiver.recvDeadlineCAS c = Run.ok s → s.chan.state = StateWord.DISCONNECTED)
    ∧ (∀ s, Receiver.recvDeadlineLoopBody false c = Run.ok s → s.chan.state = StateWord.DISCONNECTED)
    ∧ (∀ tid s, Receiver.recv_timeout false tid c = Run.ok s → s.chan.state = StateWord.DISCONNECTED)
    ∧ (∀ tid s, Receiver.recv_timeout true tid c = Run.ok s → s.chan.state = StateWord.DISCONNECTED)
    ∧ (∀ wid s, Receiver.poll wid c = Run.ok s → s.chan.state = StateWord.DISCONNECTED)
    ∧ (∀ wid s, Receiver.pollReceivingCAS wid c = Run.ok s → s.chan.state = StateWord.DISCONNECTED)
    ∧ (∀ s, Channel.write_async_waker c = Run.ok s → s.chan.state = StateWord.DISCONNECTED)
    ∧ (∀ p, Receiver.drop c = Run.ok p → p.1.state = StateWord.DISCONNECTED) := by
  obtain ⟨s, m, w⟩ := c
  simp only [Channel.state] at h
  subst h
  cases m <;> cases w <;>
    simp [Sender.drop, Receiver.try_recv, Receiver.recv, Receiver.recvCAS,
      Receiver.recvLoopBody, Receiver.recv_ref, Receiver.recvRefCAS, Receiver.recvRefLoopBody,
      Receiver.recv_deadline, Receiver.recvDeadlineCAS, Receiver.recvDeadlineLoopBody,
      Receiver.recv_timeout, Receiver.poll, Receiver.pollReceivingCAS,
      Channel.write_async_waker, Receiver.drop, assumeInit, BlockingStep.chan, AsyncStep.chan]

/-- Claim C2, witness: the amended preservation applied to a concrete
disconnected channel through `Sender::drop`. -/
theorem c2_disconnected_preserved_amended_witness :
    (({ state := StateWord.DISCONNECTED, message := none, waker := none } : Channel Nat)).state
      = StateWord.DISCONNECTED :=
  (c2_disconnected_preserved_amended
      ({ state := StateWord.DISCONNECTED, message := none, waker := none } : Channel Nat)
      rfl).1
    ({ state := StateWord.DISCONNECTED, message := none, waker := none }, Effects.dealloc1)
    (by decide)

/-- Claim C3: the `send` contract.  For every value `x`: the payload slot holds
`x` and the state word is `MESSAGE` after the swap, in every non-panicking
case; with prior state `EMPTY` the result is `Ok` with no wakeup; with prior
state `RECEIVING` the result is `Ok` and the stored waker is invoked exactly
once; with prior state `DISCONNECTED` the result is an error carrying `x`
whose wrapper owns the payload (`into_value` returns `x`; its drop path
drops the payload) and frees the control block; and an error is returned
ONLY when the prior state was `DISCONNECTED`. -/
theorem c3_send_contract {α : Type} (x : α) (c : Channel α) :
    (∀ r c1 e, Sender.send x c = Run.ok (r, c1, e) →
        c1.message = some x ∧ c1.state = StateWord.MESSAGE)
    ∧ (c.state = StateWord.EMPTY →
        Sender.send x c = Run.ok (SendRes.ok,
          { c with message := some x, state := StateWord.MESSAGE }, Effects.nil))
    ∧ (∀ w, c.state = StateWord.RECEIVING → c.waker = some w →
        Sender.send x c = Run.ok (SendRes.ok,
          { c with message := some x, state := StateWord.MESSAGE, waker := none },
          Effects.unpark w))
    ∧ (c.state = StateWord.DISCONNECTED →
        Sender.send x c = Run.ok
          (SendRes.err { chan := { c with message := some x, state := StateWord.MESSAGE } },
           { c with message := some x, state := StateWord.MESSAGE }, Effects.nil)
        ∧ (SendError.into_value
            { chan := { c with message := some x, state := StateWord.MESSAGE } }).1 = some x
        ∧ (SendError.into_value
            { chan := { c with message := some x, state := StateWord.MESSAGE } }).2.deallocs = 1
        ∧ (SendError.dropRun
            { chan := { c with message := some x, state := StateWord.MESSAGE } }).droppedMsgs = 1
        ∧ (SendError.dropRun
            { chan := { c with message := some x, state := StateWord.MESSAGE } }).deallocs = 1)
    ∧ (∀ err c1 e, Sender.send x c = Run.ok (SendRes.err err, c1, e) →
        c.state = StateWord.DISCONNECTED ∧ err.chan.message = some x) := by
  obtain ⟨s, m, w⟩ := c
  cases s <;> cases w <;>
    simp [Sender.send, Channel.write_message, assumeInit, SendError.into_value,
      SendError.dropRun, Effects.unpark, Effects.nil]

/-- Claim C3, witness: `send 7` on a fresh channel succeeds and publishes the
message. -/
theorem c3_send_contract_witness :
    Sender.send 7 (Channel.new : Channel Nat) =
      Run.ok (SendRes.ok,
        { state := StateWord.MESSAGE, message := some 7, waker := none }, Effects.nil) :=
  (c3_send_contract 7 (Channel.new : Channel Nat)).2.1 rfl

/-- Claim C4, counterexample: dropping the receiver while the state word is
`RECEIVING` does NOT free the control block — the drop path only drops the
locally owned waker (`lib.rs` 697-700); its effects contain zero
deallocations, refuting the claim's final conjunct. -/
theorem c4_counterexample :
    (Receiver.drop
        ({ state := StateWord.RECEIVING, message := none,
           waker := some (ReceiverWaker.thread 0) } : Channel Nat)
      = Run.ok ({ state := StateWord.DISCONNECTED, message := none, waker := none },
          Effects.dropWaker (ReceiverWaker.thread 0)))
    ∧ (Effects.dropWaker (ReceiverWaker.thread 0)).deallocs = 0 := by decide

/-- Claim C4, amended: whenever the consumer endpoint is dropped while the
state word is `RECEIVING`, the drop path swaps the state to `DISCONNECTED`
and drops the locally-owned waker without any wakeup being delivered, but it
does NOT free the control block: the producer is still live in this
situation and the block is freed by the producer's subsequent terminating
action (its drop observing `DISCONNECTED`, or the send-error wrapper). -/
theorem c4_receiver_drop_receiving_amended {α : Type} (c : Channel α) (w : ReceiverWaker)
    (hs : c.state = StateWord.RECEIVING) (hw : c.waker = some w) :
    Receiver.drop c =
      Run.ok ({ c with state := StateWord.DISCONNECTED, waker := none }, Effects.dropWaker w)
    ∧ (Effects.dropWaker w).unparked = []
    ∧ (Effects.dropWaker w).deallocs = 0
    ∧ Sender.drop { c with state := StateWord.DISCONNECTED, waker := none } =
        Run.ok ({ c with state := StateWord.DISCONNECTED, waker := none }, Effects.dealloc1)
    ∧ (∀ (x : α) err c1 e,
        Sender.send x { c with state := StateWord.DISCONNECTED, waker := none } =
          Run.ok (SendRes.err err, c1, e) →
        (SendError.dropRun err).deallocs = 1 ∧ (SendError.into_value err).2.deallocs = 1) := by
  obtain ⟨s, m, w0⟩ := c
  simp only [Channel.state] at hs
  simp only [Channel.waker] at hw
  subst hs
  subst hw
  simp [Receiver.drop, Sender.drop, Sender.send, Channel.write_message, assumeInit,
    Effects.dropWaker, Effects.nil, Effects.dealloc1, SendError.dropRun, SendError.into_value]

/-- Claim C4, witness: the amended drop behaviour at a concrete parked
channel. -/
theorem c4_receiver_drop_receiving_amended_witness :
    Receiver.drop
        ({ state := StateWord.RECEIVING, message := none,
           waker := some (ReceiverWaker.thread 3) } : Channel Nat) =
      Run.ok ({ state := StateWord.DISCONNECTED, message := none, waker := none },
        Effects.dropWaker (ReceiverWaker.thread 3)) :=
  (c4_receiver_drop_receiving_amended
      ({ state := StateWord.RECEIVING, message := none,
         waker := some (ReceiverWaker.thread 3) } : Channel Nat)
      (ReceiverWaker.thread 3) rfl rfl).1

/-- Claim C5: the timed-receive cancellation branch.  When the deadline has
passed, `recv_deadline` performs a single swap of the state word to `EMPTY`;
if the swap observed `RECEIVING` the withdrawn waker is dropped locally and
`Timeout` is returned; if it observed `MESSAGE` the consumer stores
`DISCONNECTED` and returns the payload; if it observed `DISCONNECTED` the
disconnected error is returned; the outcome of the timed-out branch is
always exactly one of payload / timeout / disconnected; and `recv_timeout`
delegates to `recv_deadline` when the deadline is representable. -/
theorem c5_recv_deadline_timeout_branch {α : Type} (c : Channel α) :
    (∀ w, c.state = StateWord.RECEIVING → c.waker = some w →
        Receiver.recvDeadlineLoopBody true c =
          Run.ok (BlockingStep.done (Except.error RecvTimeoutError.Timeout)
            { c with state := StateWord.EMPTY, waker := none } (Effects.dropWaker w)))
    ∧ (∀ m, c.state = StateWord.MESSAGE → c.message = some m →
        Receiver.recvDeadlineLoopBody true c =
          Run.ok (BlockingStep.done (Except.ok m)
            { c with state := StateWord.DISCONNECTED, message := none } Effects.nil))
    ∧ (c.state = StateWord.DISCONNECTED →
        Receiver.recvDeadlineLoopBody true c =
          Run.ok (BlockingStep.done (Except.error RecvTimeoutError.Disconnected)
            { c with state := StateWord.EMPTY } Effects.nil))
    ∧ (∀ r c1 e, Receiver.recvDeadlineLoopBody true c = Run.ok (BlockingStep.done r c1 e) →
        (∃ m, r = Except.ok m) ∨ r = Except.error RecvTimeoutError.Timeout ∨
          r = Except.error RecvTimeoutError.Disconnected)
    ∧ (∀ s, Receiver.recvDeadlineLoopBody true c = Run.ok s →
        ∃ r c1 e, s = BlockingStep.done r c1 e)
    ∧ (∀ tid, Receiver.recv_timeout false tid c = Receiver.recv_deadline tid c) := by
  obtain ⟨s, m, w⟩ := c
  cases s <;> cases m <;> cases w <;>
    simp [Receiver.recvDeadlineLoopBody, Receiver.recv_timeout, assumeInit]

/-- Claim C5, witness: the timed-out swap at a concrete parked channel drops
the waker and reports `Timeout`. -/
theorem c5_recv_deadline_timeout_branch_witness :
    Receiver.recvDeadlineLoopBody true
        ({ state := StateWord.RECEIVING, message := none,
           waker := some (ReceiverWaker.thread 1) } : Channel Nat) =
      Run.ok (BlockingStep.done (Except.error RecvTimeoutError.Timeout)
        { state := StateWord.EMPTY, message := none, waker := none }
        (Effects.dropWaker (ReceiverWaker.thread 1))) :=
  (c5_recv_deadline_timeout_branch
      ({ state := StateWord.RECEIVING, message := none,
         waker := some (ReceiverWaker.thread 1) } : Channel Nat)).1
    (ReceiverWaker.thread 1) rfl rfl

/-- Claim C6: every blocking receive operation (`recv`, `recv_ref`,
`recv_timeout` through both of its branches, `recv_deadline`) called while
the state word is `RECEIVING` panics with the sync-after-async message; and
this is the only panic: under the slot-initialization discipline and the
reachability side conditions of each phase (the `unreachable!` arms are
excluded by which states the other endpoint can produce), no other modelled
operation panics. -/
theorem c6_sync_after_async_panic {α : Type} (c : Channel α) (tid : Nat) (x : α) (wid : Nat) :
    (c.state = StateWord.RECEIVING →
        Receiver.recv tid c = Run.panicked RECEIVER_USED_SYNC_AND_ASYNC_ERROR
        ∧ Receiver.recv_ref tid c = Run.panicked RECEIVER_USED_SYNC_AND_ASYNC_ERROR
        ∧ Receiver.recv_deadline tid c = Run.panicked RECEIVER_USED_SYNC_AND_ASYNC_ERROR
        ∧ Receiver.recv_timeout true tid c = Run.panicked RECEIVER_USED_SYNC_AND_ASYNC_ERROR
        ∧ Receiver.recv_timeout false tid c = Run.panicked RECEIVER_USED_SYNC_AND_ASYNC_ERROR)
    ∧ (c.state ≠ StateWord.RECEIVING → c.slotsOk →
        (Receiver.recv tid c).isPanicked = false
        ∧ (Receiver.recv_ref tid c).isPanicked = false
        ∧ (Receiver.recv_deadline tid c).isPanicked = false
        ∧ (Receiver.recv_timeout true tid c).isPanicked = false
        ∧ (Receiver.recv_timeout false tid c).isPanicked = false)
    ∧ (c.slotsOk → (Receiver.try_recv c).isPanicked = false)
    ∧ (c.slotsOk → (Receiver.drop c).isPanicked = false)
    ∧ (c.slotsOk → (Receiver.poll wid c).isPanicked = false)
    ∧ (c.state ≠ StateWord.MESSAGE → c.slotsOk → (Sender.send x c).isPanicked = false)
    ∧ (c.state ≠ StateWord.MESSAGE → c.slotsOk → (Sender.drop c).isPanicked = false)
    ∧ (c.state ≠ StateWord.RECEIVING → c.slotsOk → (∃ w, c.waker = some w) →
        (Receiver.recvCAS c).isPanicked = false
        ∧ (Receiver.recvRefCAS c).isPanicked = false
        ∧ (Receiver.recvDeadlineCAS c).isPanicked = false
        ∧ (Channel.write_async_waker c).isPanicked = false)
    ∧ (c.state ≠ StateWord.EMPTY → c.slotsOk →
        (Receiver.recvLoopBody c).isPanicked = false
        ∧ (Receiver.recvRefLoopBody c).isPanicked = false
        ∧ (∀ b, (Receiver.recvDeadlineLoopBody b c).isPanicked = false)
        ∧ (Receiver.pollReceivingCAS wid c).isPanicked = false) := by
  obtain ⟨s, m, w⟩ := c
  cases s <;> cases m <;> cases w <;>
    simp [Receiver.recv, Receiver.recv_ref, Receiver.recv_deadline, Receiver.recv_timeout,
      Receiver.try_recv, Receiver.drop, Receiver.poll, Sender.send, Sender.drop,
      Receiver.recvCAS, Receiver.recvRefCAS, Receiver.recvDeadlineCAS,
      Channel.write_async_waker, Receiver.recvLoopBody, Receiver.recvRefLoopBody,
      Receiver.recvDeadlineLoopBody, Receiver.pollReceivingCAS,
      Channel.slotsOk, Channel.write_message, Channel.write_waker, assumeInit, Run.isPanicked]

/-- Claim C6, witness: calling `recv` on a concrete channel in `RECEIVING`
(an async waker installed) panics with the defined message. -/
theorem c6_sync_after_async_panic_witness :
    Receiver.recv 0
        ({ state := StateWord.RECEIVING, message := none,
           waker := some (ReceiverWaker.task 5) } : Channel Nat) =
      Run.panicked RECEIVER_USED_SYNC_AND_ASYNC_ERROR :=
  ((c6_sync_after_async_panic
      ({ state := StateWord.RECEIVING, message := none,
         waker := some (ReceiverWaker.task 5) } : Channel Nat)
      0 0 0).1 rfl).1

/-- Claim C7: the async re-poll branch.  A poll that loads `RECEIVING`
proceeds to the `compare_exchange(RECEIVING, EMPTY)`; on success it drops
the old waker and writes the new one, proceeding to the same
`write_async_waker` compare-exchange as the `EMPTY` entry branch, which
returns `Pending` on a further successful compare-exchange; on the
compare-exchange observing `MESSAGE` the old waker is NOT dropped (effects
empty, waker slot untouched), `DISCONNECTED` is stored and `Ready` with the
payload is returned; on observing `DISCONNECTED` the old waker is NOT
dropped and `Ready` with the error is returned. -/
theorem c7_poll_receiving_branch {α : Type} (c : Channel α) (wid : Nat) :
    (c.state = StateWord.RECEIVING → Receiver.poll wid c = Run.ok (AsyncStep.reclaim c))
    ∧ (∀ w, c.state = StateWord.RECEIVING → c.waker = some w →
        Receiver.pollReceivingCAS wid c =
          Run.ok (AsyncStep.toCAS
            { c with state := StateWord.EMPTY, waker := some (ReceiverWaker.task wid) }
            (Effects.dropWaker w)))
    ∧ (c.state = StateWord.EMPTY →
        Receiver.poll wid c =
          Run.ok (AsyncStep.toCAS (c.write_waker (ReceiverWaker.task wid)) Effects.nil))
    ∧ (∀ c1 : Channel α, c1.state = StateWord.EMPTY →
        Channel.write_async_waker c1 =
          Run.ok (AsyncStep.done Poll.Pending { c1 with state := StateWord.RECEIVING } Effects.nil))
    ∧ (∀ m, c.state = StateWord.MESSAGE → c.message = some m →
        Receiver.pollReceivingCAS wid c =
          Run.ok (AsyncStep.done (Poll.Ready (Except.ok m))
            { c with state := StateWord.DISCONNECTED, message := none } Effects.nil))
    ∧ (c.state = StateWord.DISCONNECTED →
        Receiver.pollReceivingCAS wid c =
          Run.ok (AsyncStep.done (Poll.Ready (Except.error RecvError.mk)) c Effects.nil)) := by
  constructor
  · intro h
    obtain ⟨s, m, w⟩ := c
    simp only [Channel.state] at h
    subst h
    simp [Receiver.poll]
  refine ⟨?_, ?_, ?_, ?_, ?_⟩ <;>
    first
    | (intro c1 h
       obtain ⟨s, m, w⟩ := c1
       simp only [Channel.state] at h
       subst h
       simp [Channel.write_async_waker, assumeInit])
    | (obtain ⟨s, m, w⟩ := c
       cases s <;> cases m <;> cases w <;>
         simp [Receiver.poll, Receiver.pollReceivingCAS, Channel.write_waker, assumeInit])

/-- Claim C7, witness: the re-poll compare-exchange at a concrete channel
drops the old task waker and installs the new one. -/
theorem c7_poll_receiving_branch_witness :
    Receiver.pollReceivingCAS 1
        ({ state := StateWord.RECEIVING, message := none,
           waker := some (ReceiverWaker.task 5) } : Channel Nat) =
      Run.ok (AsyncStep.toCAS
        { state := StateWord.EMPTY, message := none, waker := some (ReceiverWaker.task 1) }
        (Effects.dropWaker (ReceiverWaker.task 5))) :=
  (c7_poll_receiving_branch
      ({ state := StateWord.RECEIVING, message := none,
         waker := some (ReceiverWaker.task 5) } : Channel Nat) 1).2.1
    (ReceiverWaker.task 5) rfl rfl

/-- Claim C8: the `try_recv` result mapping.  From its single load: `EMPTY`
and `RECEIVING` yield `Err(Empty)`, `DISCONNECTED` yields
`Err(Disconnected)`, and `MESSAGE` stores `DISCONNECTED` and returns the
payload moved out; in every case the waker slot is untouched (no waker
installed) and the effects are empty (nothing parked, woken, dropped or
freed). -/
theorem c8_try_recv_mapping {α : Type} (c : Channel α) :
    (c.state = StateWord.EMPTY →
        Receiver.try_recv c = Run.ok (Except.error TryRecvError.Empty, c, Effects.nil))
    ∧ (c.state = StateWord.RECEIVING →
        Receiver.try_recv c = Run.ok (Except.error TryRecvError.Empty, c, Effects.nil))
    ∧ (c.state = StateWord.DISCONNECTED →
        Receiver.try_recv c = Run.ok (Except.error TryRecvError.Disconnected, c, Effects.nil))
    ∧ (∀ m, c.state = StateWord.MESSAGE → c.message = some m →
        Receiver.try_recv c =
          Run.ok (Except.ok m, { c with state := StateWord.DISCONNECTED, message := none },
            Effects.nil))
    ∧ (∀ r c1 e, Receiver.try_recv c = Run.ok (r, c1, e) →
        c1.waker = c.waker ∧ e = Effects.nil) := by
  obtain ⟨s, m, w⟩ := c
  cases s <;> cases m <;> cases w <;> simp [Receiver.try_recv, assumeInit]

/-- Claim C8, witness: `try_recv` on a concrete channel holding `42` returns
the payload and marks the channel disconnected. -/
theorem c8_try_recv_mapping_witness :
    Receiver.try_recv
        ({ state := StateWord.MESSAGE, message := some 42, waker := none } : Channel Nat) =
      Run.ok (Except.ok 42,
        { state := StateWord.DISCONNECTED, message := none, waker := none }, Effects.nil) :=
  (c8_try_recv_mapping
      ({ state := StateWord.MESSAGE, message := some 42, waker := none } : Channel Nat)).2.2.2.1
    42 rfl rfl

/-- Claim C9: the producer's drop path never observes `MESSAGE`.  In the
abstract system of all interleaved atomic state-word writes, every
configuration reachable while the sender is still live (send would consume
it via `mem::forget`) has a state word different from `MESSAGE`; this is
sound because, as the remaining conjuncts show, no receiver-side operation
ever writes `MESSAGE` into the state word (a post-state of `MESSAGE` is only
possible when the pre-state already was `MESSAGE`); consequently
`Sender::drop` run on any such state does not reach its `unreachable!` arm
(it observes `EMPTY`, `RECEIVING` or `DISCONNECTED`), which is dead code. -/
theorem c9_sender_drop_never_observes_message {α : Type} (c : Channel α) :
    (∀ s, SysReachable s → s.senderAlive = true → s.st ≠ StateWord.MESSAGE)
    ∧ (∀ r c1 e, Receiver.try_recv c = Run.ok (r, c1, e) →
        c1.state = StateWord.MESSAGE → c.state = StateWord.MESSAGE)
    ∧ (∀ tid s, Receiver.recv tid c = Run.ok s →
        s.chan.state = StateWord.MESSAGE → c.state = StateWord.MESSAGE)
    ∧ (∀ s, Receiver.recvCAS c = Run.ok s →
        s.chan.state = StateWord.MESSAGE → c.state = StateWord.MESSAGE)
    ∧ (∀ s, Receiver.recvLoopBody c = Run.ok s →
        s.chan.state = StateWord.MESSAGE → c.state = StateWord.MESSAGE)
    ∧ (∀ tid s, Receiver.recv_ref tid c = Run.ok s →
        s.chan.state = StateWord.MESSAGE → c.state = StateWord.MESSAGE)
    ∧ (∀ s, Receiver.recvRefCAS c = Run.ok s →
        s.chan.state = StateWord.MESSAGE → c.state = StateWord.MESSAGE)
    ∧ (∀ s, Receiver.recvRefLoopBody c = Run.ok s →
        s.chan.state = StateWord.MESSAGE → c.state = StateWord.MESSAGE)
    ∧ (∀ tid s, Receiver.recv_deadline tid c = Run.ok s →
        s.chan.state = StateWord.MESSAGE → c.state = StateWord.MESSAGE)
    ∧ (∀ s, Receiver.recvDeadlineCAS c = Run.ok s →
        s.chan.state = StateWord.MESSAGE → c.state = StateWord.MESSAGE)
    ∧ (∀ b s, Receiver.recvDeadlineLoopBody b c = Run.ok s →
        s.chan.state = StateWord.MESSAGE → c.state = StateWord.MESSAGE)
    ∧ (∀ b tid s, Receiver.recv_timeout b tid c = Run.ok s →
        s.chan.state = StateWord.MESSAGE → c.state = StateWord.MESSAGE)
    ∧ (∀ wid s, Receiver.poll wid c = Run.ok s →
        s.chan.state = StateWord.MESSAGE → c.state = StateWord.MESSAGE)
    ∧ (∀ wid s, Receiver.pollReceivingCAS wid c = Run.ok s →
        s.chan.state = StateWord.MESSAGE → c.state = StateWord.MESSAGE)
    ∧ (∀ s, Channel.write_async_waker c = Run.ok s →
        s.chan.state = StateWord.MESSAGE → c.state = StateWord.MESSAGE)
    ∧ (∀ p, Receiver.drop c = Run.ok p →
        p.1.state = StateWord.MESSAGE → c.state = StateWord.MESSAGE)
    ∧ (c.state ≠ StateWord.MESSAGE → c.slotsOk → (Sender.drop c).isPanicked = false)
    ∧ (c.state ≠ StateWord.MESSAGE →
        c.state = StateWord.EMPTY ∨ c.state = StateWord.RECEIVING ∨
          c.state = StateWord.DISCONNECTED) := by
  constructor
  · intro s hs
    induction hs with
    | refl => simp
    | tail hab step ih =>
        cases step with
        | sendSwap h => simp
        | senderDropSwap h => simp
        | receiverStoreDisc => simp
        | receiverInstall h => simp
        | receiverWithdrawSwap => simp
        | receiverReclaim h => simp
  obtain ⟨s, m, w⟩ := c
  cases s <;> cases m <;> cases w <;>
    simp [Receiver.try_recv, Receiver.recv, Receiver.recvCAS, Receiver.recvLoopBody,
      Receiver.recv_ref, Receiver.recvRefCAS, Receiver.recvRefLoopBody,
      Receiver.recv_deadline, Receiver.recvDeadlineCAS, Receiver.recvDeadlineLoopBody,
      Receiver.recv_timeout, Receiver.poll, Receiver.pollReceivingCAS,
      Channel.write_async_waker, Receiver.drop, Sender.drop, Channel.slotsOk,
      Channel.write_waker, assumeInit, BlockingStep.chan, AsyncStep.chan, Run.isPanicked]

/-- Claim C9, witness: the invariant applied at the initial configuration. -/
theorem c9_sender_drop_never_observes_message_witness :
    ({ senderAlive := true, st := StateWord.EMPTY } : SysC9).st ≠ StateWord.MESSAGE :=
  (c9_sender_drop_never_observes_message (Channel.new : Channel Nat)).1
    { senderAlive := true, st := StateWord.EMPTY } Relation.ReflTransGen.refl rfl

/-- Claim C10: `try_recv` never deallocates the control block, in any outcome;
after it returns the payload the state word is `DISCONNECTED`; a consumer or
producer drop that observes `DISCONNECTED` frees the block; the send-error
wrapper frees the block; and none of the non-consuming receive phases
(`recv_ref`, `recv_deadline`, `recv_timeout` loop phases, `poll` phases)
ever frees it. -/
theorem c10_try_recv_never_deallocates {α : Type} (c : Channel α) :
    (∀ r c1 e, Receiver.try_recv c = Run.ok (r, c1, e) → e.deallocs = 0)
    ∧ (∀ m c1 e, Receiver.try_recv c = Run.ok (Except.ok m, c1, e) →
        c1.state = StateWord.DISCONNECTED)
    ∧ (c.state = StateWord.DISCONNECTED →
        Receiver.drop c = Run.ok ({ c with state := StateWord.DISCONNECTED }, Effects.dealloc1)
        ∧ Sender.drop c = Run.ok ({ c with state := StateWord.DISCONNECTED }, Effects.dealloc1))
    ∧ (∀ (x : α) err c1 e, Sender.send x c = Run.ok (SendRes.err err, c1, e) →
        (SendError.dropRun err).deallocs = 1 ∧ (SendError.into_value err).2.deallocs = 1)
    ∧ (∀ tid s, Receiver.recv_ref tid c = Run.ok s → s.eff.deallocs = 0)
    ∧ (∀ s, Receiver.recvRefCAS c = Run.ok s → s.eff.deallocs = 0)
    ∧ (∀ s, Receiver.recvRefLoopBody c = Run.ok s → s.eff.deallocs = 0)
    ∧ (∀ tid s, Receiver.recv_deadline tid c = Run.ok s → s.eff.deallocs = 0)
    ∧ (∀ s, Receiver.recvDeadlineCAS c = Run.ok s → s.eff.deallocs = 0)
    ∧ (∀ b s, Receiver.recvDeadlineLoopBody b c = Run.ok s → s.eff.deallocs = 0)
    ∧ (∀ wid s, Receiver.poll wid c = Run.ok s → s.eff.deallocs = 0)
    ∧ (∀ wid s, Receiver.pollReceivingCAS wid c = Run.ok s → s.eff.deallocs = 0)
    ∧ (∀ s, Channel.write_async_waker c = Run.ok s → s.eff.deallocs = 0) := by
  obtain ⟨s, m, w⟩ := c
  cases s <;> cases m <;> cases w <;>
    simp [Receiver.try_recv, Receiver.drop, Sender.drop, Sender.send,
      Receiver.recv_ref, Receiver.recvRefCAS, Receiver.recvRefLoopBody,
      Receiver.recv_deadline, Receiver.recvDeadlineCAS, Receiver.recvDeadlineLoopBody,
      Receiver.poll, Receiver.pollReceivingCAS, Channel.write_async_waker,
      Channel.write_message, Channel.write_waker, assumeInit, BlockingStep.eff, AsyncStep.eff,
      Effects.nil, Effects.dealloc1, Effects.dropWaker, Effects.dropMsg, Effects.add,
      SendError.dropRun, SendError.into_value]

/-- Claim C10, witness: the no-dealloc conjunct applied to a concrete
`try_recv` that returns the payload. -/
theorem c10_try_recv_never_deallocates_witness :
    Effects.nil.deallocs = 0 :=
  (c10_try_recv_never_deallocates
      ({ state := StateWord.MESSAGE, message := some 42, waker := none } : Channel Nat)).1
    (Except.ok 42) { state := StateWord.DISCONNECTED, message := none, waker := none }
    Effects.nil (by decide)

end Oneshot
